import Mathlib

/-!
# Verification of the solTrendWheel narrative pipeline

Shallow embedding, in Lean 4, of the parts of the solTrendWheel repository
that the specification's testable properties talk about:

* `characterization.js` — the narrative characterizer (theme identification,
  lifecycle classification, overall strength, confidence);
* `clustering.js` — the clustering entry guard and cluster coherence;
* the adaptive scorer (pair correlation, correlation adjustments, the
  top-level catch fallback, and weight adaptation).

JavaScript numbers are modelled as `Option ℚ`, with `none` playing the role
of `NaN` (and of `undefined` where a missing object property flows into
arithmetic); real-valued geometry (Euclidean distance) is modelled over `ℝ`.
-/

/-- A JavaScript numeric value: `none` models `NaN` (or `undefined` flowing
into arithmetic, which JS also turns into `NaN`). -/
abbrev JNum := Option ℚ

/-- JS addition: `NaN` propagates. -/
def jadd : JNum → JNum → JNum
  | some a, some b => some (a + b)
  | _, _ => none

/-- JS subtraction: `NaN` propagates. -/
def jsub : JNum → JNum → JNum
  | some a, some b => some (a - b)
  | _, _ => none

/-- JS multiplication: `NaN` propagates (also `0 * NaN = NaN`). -/
def jmul : JNum → JNum → JNum
  | some a, some b => some (a * b)
  | _, _ => none

/-- JS `Math.abs`: `NaN` propagates. -/
def jabs : JNum → JNum
  | some a => some |a|
  | none => none

/-- JS `Math.min`: returns `NaN` when either argument is `NaN`. -/
def jmin : JNum → JNum → JNum
  | some a, some b => some (min a b)
  | _, _ => none

/-- JS `Math.max`: returns `NaN` when either argument is `NaN`. -/
def jmax : JNum → JNum → JNum
  | some a, some b => some (max a b)
  | _, _ => none

/-- JS `x > t`: every comparison with `NaN` is false. -/
def jgt : JNum → ℚ → Bool
  | some a, t => a > t
  | none, _ => false

/-- JS `x || d`: `NaN`, `undefined` and `0` are falsy and fall through to `d`. -/
def jor : JNum → JNum → JNum
  | some a, d => if a = 0 then d else some a
  | none, d => d

/-- The numeric value of `x || 0` (always an actual number). -/
def jval (x : JNum) : ℚ := x.getD 0

namespace Characterization

/-- Narrative age category, as produced by `categorizeNarrativeAge`. -/
inductive AgeCat
  | newAge | fresh | mature | established
deriving DecidableEq, Repr

/-- Emergence pattern, as produced by `analyzeEmergencePattern`. -/
inductive Emergence
  | burst | rapid | gradual | extended
deriving DecidableEq, Repr

/-- Lifecycle stage, as produced by `determineLifecycleStage`. -/
inductive Stage
  | emerging | growing | peak | declining
deriving DecidableEq, Repr

/-- The configurable lifecycle score thresholds
(`this.config.lifecycleThresholds`). -/
structure Thresholds where
  emerging : ℚ
  growing : ℚ
  peak : ℚ
  declining : ℚ
deriving DecidableEq, Repr

/-- Default thresholds: emerging 30, growing 60, peak 80, declining 40. -/
def defaultThresholds : Thresholds := ⟨30, 60, 80, 40⟩

/-- Embeds `calculateMomentum` of `characterization.js`: a fixed map from the
emergence pattern — burst `0.8`, rapid `0.6`, gradual `0.3`, extended `0.1`
(the `|| 0` default is unreachable, since `analyzeEmergencePattern` always
returns one of the four patterns). -/
def calculateMomentum : Emergence → ℚ
  | .burst => 4/5
  | .rapid => 3/5
  | .gradual => 3/10
  | .extended => 1/10

/-- Embeds `calculateCommunityGrowth` of `characterization.js`: the uniform-random
placeholder `(Math.random() - 0.5) * 0.4`, with the random draw `r ∈ [0,1)`
made an explicit oracle argument. -/
def calculateCommunityGrowth (r : ℚ) : ℚ := (r - 1/2) * (2/5)

/-- The values `Math.random()` can return. -/
def validRand (r : ℚ) : Prop := 0 ≤ r ∧ r < 1

/-- Embeds `determineLifecycleStage` of `characterization.js`, lines 364–414:
`lifecycleScore = strength + momentum*20 + growth*15`, then `*= 0.8` when the
age category is `new` and `*= 1.1` when it is `mature`, then threshold
bucketing, with the top branch checking `momentum < 0 && growth < 0` for
`declining`. -/
def determineLifecycleStage (th : Thresholds) (strength momentum growth : ℚ)
    (age : AgeCat) : Stage :=
  let s0 := strength + momentum * 20 + growth * 15
  let s1 := if age = .newAge then s0 * (4/5) else s0
  let score := if age = .mature then s1 * (11/10) else s1
  if score < th.emerging then .emerging
  else if score < th.growing then .growing
  else if score < th.peak then .peak
  else if momentum < 0 ∧ growth < 0 then .declining
  else .peak

/-- Modelled from the spec's words for claim C6: the lifecycle score is
`strength + momentum×20 + growth×15`, multiplied by `0.8` for a young
narrative and `1.1` for a mature one. -/
def lifecycleScoreSpec (strength momentum growth : ℚ) (age : AgeCat) : ℚ :=
  (strength + momentum * 20 + growth * 15) *
    (if age = .newAge then 4/5 else if age = .mature then 11/10 else 1)

/-- Modelled from the spec's words for claim C6: bucket the score into
emerging/growing/peak by the configured thresholds, then apply the override
that a peak-range score (at or above the peak threshold) with both negative
momentum and negative growth is reclassified to declining. -/
def lifecycleStageSpec (th : Thresholds) (strength momentum growth : ℚ)
    (age : AgeCat) : Stage :=
  let score := lifecycleScoreSpec strength momentum growth age
  let bucket : Stage :=
    if score < th.emerging then .emerging
    else if score < th.growing then .growing
    else .peak
  if bucket = .peak ∧ th.peak ≤ score ∧ momentum < 0 ∧ growth < 0 then
    .declining
  else bucket

end Characterization

/-- C6. In lifecycle classification, the score equals
`strength + momentum×20 + growth×15`, multiplied by `0.8` for a young (`new`)
narrative and `1.1` for a mature one, and is bucketed into
emerging/growing/peak by the configured thresholds, with the override that a
peak-range score (at or above the peak threshold) with both negative momentum
and negative growth is reclassified to declining: the code's
`determineLifecycleStage` agrees with this specification on every input. -/
theorem c6_lifecycle_spec_equiv (th : Characterization.Thresholds)
    (strength momentum growth : ℚ) (age : Characterization.AgeCat) :
    Characterization.determineLifecycleStage th strength momentum growth age =
      Characterization.lifecycleStageSpec th strength momentum growth age := by
  unfold Characterization.determineLifecycleStage
    Characterization.lifecycleStageSpec Characterization.lifecycleScoreSpec
  cases age <;> simp only [reduceCtorEq, if_true, if_false, mul_one] <;>
    split_ifs <;> simp_all <;> linarith

namespace Characterization

/-- A token descriptor as the characterizer reads it: name, symbol, and
creation timestamp in milliseconds. -/
structure Tok where
  name : String
  symbol : String
  createdAt : ℚ
deriving DecidableEq, Repr

/-- A cluster handed to the characterizer: member tokens plus the strength
attached by the clustering engine (a JS number). -/
structure Cluster where
  tokens : List Tok
  strength : JNum
deriving DecidableEq, Repr

/-- JS `\w` word character: `[A-Za-z0-9_]` (ASCII, as all inputs here are). -/
def wordCharP (c : Char) : Bool := c.isAlphanum || c = '_'

/-- Split a character list into the maximal runs of word characters, i.e.
the matches of `/\b\w+\b/g`. -/
def wordsAux : List Char → List Char → List (List Char)
  | [], acc => if acc.isEmpty then [] else [acc.reverse]
  | c :: cs, acc =>
    if wordCharP c then wordsAux cs (c :: acc)
    else if acc.isEmpty then wordsAux cs []
    else acc.reverse :: wordsAux cs []

/-- The word list of a string (`text.match(/\b\w+\b/g)`). -/
def wordsOf (s : String) : List String :=
  (wordsAux s.toList []).map List.asString

/-- The raw text of `analyzeClusterContent`: token names and symbols joined by
spaces and lower-cased. -/
def clusterText (tokens : List Tok) : String :=
  (String.intercalate " " (tokens.map fun t => t.name ++ " " ++ t.symbol)).toLower

/-- One theme of the `initializeThemeKeywords` catalog: its keyword list, the
keyword alternatives of its regex pattern, and its weight. -/
structure ThemeEntry where
  tname : String
  keywords : List String
  patternWords : List String
  weight : ℚ

/-- The theme catalog of `initializeThemeKeywords`, in object insertion
order.  For every theme except `animals` the regex alternatives coincide with
the keyword list; the `animals` pattern lacks `shiba`. -/
def themeCatalog : List ThemeEntry :=
  let animalKw := ["dog", "doge", "shib", "shiba", "puppy", "cat", "kitten",
    "bear", "bull", "tiger", "lion", "wolf", "fox", "rabbit", "bird", "fish",
    "frog", "pepe"]
  let animalPat := ["dog", "doge", "shib", "puppy", "cat", "kitten", "bear",
    "bull", "tiger", "lion", "wolf", "fox", "rabbit", "bird", "fish", "frog",
    "pepe"]
  let aiKw := ["ai", "artificial", "intelligence", "neural", "machine",
    "learning", "gpt", "chat", "bot", "robot", "tech", "protocol", "network"]
  let gamingKw := ["game", "gaming", "play", "metaverse", "nft", "avatar",
    "virtual", "vr", "ar", "world", "quest", "adventure"]
  let defiKw := ["defi", "finance", "yield", "farm", "stake", "liquidity",
    "swap", "bridge", "lending", "borrowing", "treasury", "vault"]
  let memeKw := ["meme", "moon", "rocket", "diamond", "hands", "hodl", "ape",
    "chad", "wojak", "based", "cringe"]
  let foodKw := ["pizza", "burger", "taco", "sushi", "cake", "cookie",
    "bread", "donut", "sandwich", "pasta"]
  let politicalKw := ["trump", "biden", "political", "election", "vote",
    "democracy", "republican", "democrat", "president"]
  let rwaKw := ["real", "estate", "gold", "silver", "commodity", "asset",
    "bond", "treasury", "backed", "reserve"]
  let spaceKw := ["space", "mars", "moon", "lunar", "solar", "galaxy", "star",
    "planet", "cosmos", "orbit", "rocket"]
  let energyKw := ["energy", "solar", "wind", "green", "carbon", "climate",
    "renewable", "sustainable", "eco"]
  [⟨"animals", animalKw, animalPat, 1⟩,
   ⟨"ai", aiKw, aiKw, 6/5⟩,
   ⟨"gaming", gamingKw, gamingKw, 11/10⟩,
   ⟨"defi", defiKw, defiKw, 1⟩,
   ⟨"meme", memeKw, memeKw, 9/10⟩,
   ⟨"food", foodKw, foodKw, 4/5⟩,
   ⟨"political", politicalKw, politicalKw, 11/10⟩,
   ⟨"rwa", rwaKw, rwaKw, 13/10⟩,
   ⟨"space", spaceKw, spaceKw, 1⟩,
   ⟨"energy", energyKw, energyKw, 11/10⟩]

/-- The `extractWordFrequencies` lookup: occurrences of `w` among the words of
the text that are longer than two characters (shorter words are never stored
in the frequency map, so looking them up yields `0`). -/
def wordFreq (ws : List String) (w : String) : ℕ :=
  (ws.filter fun x => x.length > 2).count w

/-- The regex bonus of `identifyThemes`: `String.match` without the `/g`
flag returns, on success, `[full match, capture group]` — an array of length
2 — so `patternMatches` is 2 when some pattern alternative occurs as a whole
word and 0 otherwise. -/
def patternMatchCount (ws : List String) (pws : List String) : ℕ :=
  if pws.any fun p => ws.contains p then 2 else 0

/-- The score `identifyThemes` assigns one theme: keyword frequencies times
the theme weight, plus the pattern-match count times the weight times 2. -/
def themeScore (ws : List String) (t : ThemeEntry) : ℚ :=
  (t.keywords.map fun kw => (wordFreq ws kw : ℚ) * t.weight).sum +
    (patternMatchCount ws t.patternWords : ℚ) * t.weight * 2

/-- Stable descending insertion (JS `Array.sort` is stable; the comparator is
`(a, b) => b[1] - a[1]`). -/
def insStable (x : String × ℚ) : List (String × ℚ) → List (String × ℚ)
  | [] => [x]
  | y :: ys => if y.2 < x.2 then x :: y :: ys else y :: insStable x ys

/-- Stable sort, descending by score. -/
def sortDesc (l : List (String × ℚ)) : List (String × ℚ) :=
  l.foldl (fun acc x => insStable x acc) []

/-- Embeds `identifyThemes`: score every catalog theme over the cluster text, keep
the strictly positive scores (in catalog insertion order), sort descending
(stably), and take the head as the primary theme and the next two as
secondary themes. -/
def identifyThemes (text : String) :
    Option (String × ℚ) × List (String × ℚ) :=
  let ws := wordsOf text
  let scored := (themeCatalog.map fun t => (t.tname, themeScore ws t)).filter
    fun p => 0 < p.2
  let sorted := sortDesc scored
  (sorted.head?, (sorted.drop 1).take 2)

/-- Token ages in milliseconds (`now - createdAt`). -/
def agesOf (now : ℚ) (tokens : List Tok) : List ℚ :=
  tokens.map fun t => now - t.createdAt

/-- Embeds `analyzeEmergencePattern`: bucket the age spread (max minus min).  The
code sorts the ages and subtracts the extremes, which is the same spread.
Used on the nonempty clusters the pipeline hands the characterizer. -/
def emergenceOf (ages : List ℚ) : Emergence :=
  let lo := ages.foldl min (ages.headD 0)
  let hi := ages.foldl max (ages.headD 0)
  let span := hi - lo
  if span < 3600000 then .burst
  else if span < 86400000 then .rapid
  else if span < 604800000 then .gradual
  else .extended

/-- Average age (`analyzeTemporalPatterns`). -/
def avgAgeOf (ages : List ℚ) : ℚ := ages.sum / ages.length

/-- Embeds `categorizeNarrativeAge`: hours thresholds 24 / 168 / 720. -/
def categorizeNarrativeAge (avgAge : ℚ) : AgeCat :=
  let hours := avgAge / 3600000
  if hours < 24 then .newAge
  else if hours < 168 then .fresh
  else if hours < 720 then .mature
  else .established

/-- The primary theme and the lifecycle stage that `characterizeNarrative`
produces for a cluster: the theme comes from `identifyThemes` over the
cluster text; the stage comes from `determineLifecycleStage` applied to
`cluster.strength || 0`, the momentum derived from the emergence pattern,
the community growth derived from the `Math.random()` draw `rand`, and the
age category of the average age.  `rand` is the only randomness the
characterizer consumes. -/
def characterizeThemeStage (th : Thresholds) (now rand : ℚ) (c : Cluster) :
    Option (String × ℚ) × Stage :=
  let themes := identifyThemes (clusterText c.tokens)
  let ages := agesOf now c.tokens
  let momentum := calculateMomentum (emergenceOf ages)
  let growth := calculateCommunityGrowth rand
  let age := categorizeNarrativeAge (avgAgeOf ages)
  (themes.1, determineLifecycleStage th (jval (jor c.strength (some 0)))
    momentum growth age)

end Characterization

/-- C4 (amended). Characterizing the same unchanged cluster twice under
unchanged configuration yields the same primary theme in both runs: the
primary theme does not depend on the random draw that the characterizer's
community-growth placeholder consumes.  (The lifecycle stage, by contrast,
may differ between the runs — see the counterexample.) -/
theorem c4_theme_deterministic (th : Characterization.Thresholds)
    (now r r' : ℚ) (c : Characterization.Cluster) :
    (Characterization.characterizeThemeStage th now r c).1 =
      (Characterization.characterizeThemeStage th now r' c).1 := rfl

/-- The concrete cluster of the C4 counterexample: three `Doge Classic`
tokens, one created 7.1 days before the other two, with cluster strength 27. -/
def c4Cluster : Characterization.Cluster :=
  ⟨[⟨"Doge Classic", "DOGE", 1700000000000⟩,
    ⟨"Doge Classic", "DOGE", 1700000000000 - 613440000⟩,
    ⟨"Doge Classic", "DOGE", 1700000000000⟩], some 27⟩

/-- C4 (counterexample). Two runs of the characterizer on the very same
cluster, under the default configuration and at the same instant, can return
different lifecycle stages: with random draw `0.99` the community-growth
placeholder pushes the lifecycle score to `31.94` (stage `growing`), with
draw `0` it drops to `26` (stage `emerging`).  Both draws are legitimate
values of `Math.random()`, so re-characterizing an unchanged cluster does
not always yield the same lifecycle stage. -/
theorem c4_counterexample :
    (Characterization.characterizeThemeStage Characterization.defaultThresholds
        1700000000000 (99/100) c4Cluster).2 ≠
      (Characterization.characterizeThemeStage
        Characterization.defaultThresholds 1700000000000 0 c4Cluster).2 ∧
      Characterization.validRand (99/100) ∧ Characterization.validRand 0 := by
  refine ⟨?_, ⟨by norm_num, by norm_num⟩, ⟨le_refl 0, by norm_num⟩⟩
  have hages : Characterization.agesOf 1700000000000 c4Cluster.tokens =
      [0, 613440000, 0] := by
    norm_num [Characterization.agesOf, c4Cluster]
  have hem : Characterization.emergenceOf [0, 613440000, 0] =
      Characterization.Emergence.extended := by
    simp [Characterization.emergenceOf]; norm_num
  have hage : Characterization.categorizeNarrativeAge
      (Characterization.avgAgeOf [0, 613440000, 0]) =
      Characterization.AgeCat.fresh := by
    simp [Characterization.categorizeNarrativeAge, Characterization.avgAgeOf]
    norm_num
  have hstr : jval (jor (some 27) (some 0)) = 27 := by norm_num [jor, jval]
  have h1 : (Characterization.characterizeThemeStage
      Characterization.defaultThresholds 1700000000000 (99/100) c4Cluster).2 =
      Characterization.Stage.growing := by
    simp only [Characterization.characterizeThemeStage, hages, hem, hage, hstr]
    simp only [Characterization.determineLifecycleStage,
      Characterization.calculateMomentum, Characterization.calculateCommunityGrowth,
      Characterization.defaultThresholds, c4Cluster, jor, jval, reduceCtorEq]
    norm_num
  have h2 : (Characterization.characterizeThemeStage
      Characterization.defaultThresholds 1700000000000 0 c4Cluster).2 =
      Characterization.Stage.emerging := by
    simp only [Characterization.characterizeThemeStage, hages, hem, hage, hstr]
    simp only [Characterization.determineLifecycleStage,
      Characterization.calculateMomentum, Characterization.calculateCommunityGrowth,
      Characterization.defaultThresholds, c4Cluster, jor, jval, reduceCtorEq]
    norm_num
  rw [h1, h2]
  simp

theorem jadd_nan (x : JNum) : jadd x none = none := by cases x <;> rfl

theorem jadd_nan_left (x : JNum) : jadd none x = none := by cases x <;> rfl

theorem jmul_nan_left (x : JNum) : jmul none x = none := by cases x <;> rfl

theorem jmul_nan_right (x : JNum) : jmul x none = none := by cases x <;> rfl

namespace Characterization

/-- The categorical volume label `categorizeVolume` produces; it is stored in
`characteristics.market.volume` as a plain string. -/
inductive VolCat
  | massive | high | moderate | low | minimal
deriving DecidableEq, Repr

/-- Embeds `categorizeVolume` of `characterization.js`. -/
def categorizeVolume (totalVolume : ℚ) : VolCat :=
  if totalVolume > 50000000 then .massive
  else if totalVolume > 10000000 then .high
  else if totalVolume > 1000000 then .moderate
  else if totalVolume > 100000 then .low
  else .minimal

/-- The JS numeric coercion of a volume label: every string
`categorizeVolume` can produce (`massive`, `high`, `moderate`, `low`,
`minimal`) is non-numeric, so multiplying it coerces it to `NaN`. -/
def volCatNum (_ : VolCat) : JNum := none

/-- The temporal characteristics record built by
`calculateNarrativeCharacteristics`: it has fields `age`, `emergence`,
`momentum` (and a description string) — and, importantly, no `stage`
field. -/
structure TemporalChar where
  age : AgeCat
  emergence : Emergence
  momentum : ℚ
deriving DecidableEq, Repr

/-- The `stageMultipliers` table declared inside
`calculateNarrativeStrength`: emerging 0.8, growing 1.2, peak 1.0,
declining 0.6. -/
def stageMultipliers : Stage → ℚ
  | .emerging => 4/5
  | .growing => 6/5
  | .peak => 1
  | .declining => 3/5

/-- The lookup `stageMultipliers[characteristics.temporal.stage]`: the
temporal characteristics record has no `stage` field, so the property access
yields `undefined`, and indexing the table with `undefined` yields
`undefined` too, whatever the table contains. -/
def stageLookupOnTemporal (_ : TemporalChar) : JNum := none

/-- The multiplier `calculateNarrativeStrength` actually applies:
`stageMultipliers[characteristics.temporal.stage] || 1.0`. -/
def strengthStageMultiplier (t : TemporalChar) : JNum :=
  jor (stageLookupOnTemporal t) (some 1)

/-- Embeds `calculateNarrativeStrength` of `characterization.js`, lines 419–447:
start from `cluster.strength || 0`; add the primary theme score × 5 (when a
primary theme exists) and each secondary theme score × 2; add
`characteristics.market.volume * 0.1` (the categorical volume label times
0.1 — a string times a number), community engagement × 10, virality × 15 and
|volatility score| × 0.2; multiply by the stage multiplier; clamp with
`Math.min(100, Math.max(0, strength))`. -/
def calculateNarrativeStrength (clusterStrength : JNum)
    (primaryScore : Option ℚ) (secondaryScores : List ℚ) (volCat : VolCat)
    (engagement virality volatilityScore : ℚ) (temporal : TemporalChar) :
    JNum :=
  let s0 := jor clusterStrength (some 0)
  let s1 := match primaryScore with
    | some p => jadd s0 (some (p * 5))
    | none => s0
  let s2 := secondaryScores.foldl (fun acc q => jadd acc (some (q * 2))) s1
  let s3 := jadd s2 (jmul (volCatNum volCat) (some (1/10)))
  let s4 := jadd s3 (some (engagement * 10))
  let s5 := jadd s4 (some (virality * 15))
  let s6 := jadd s5 (some (|volatilityScore| * (1/5)))
  let s7 := jmul s6 (strengthStageMultiplier temporal)
  jmin (some 100) (jmax (some 0) s7)

/-- The volume bonus `characteristics.market.volume * 0.1` is `NaN`, and
`NaN` survives every later addition, the multiplication and both clamps: the
strength `calculateNarrativeStrength` returns is `NaN` on every input. -/
theorem calculateNarrativeStrength_nan (clusterStrength : JNum)
    (primaryScore : Option ℚ) (secondaryScores : List ℚ) (volCat : VolCat)
    (engagement virality volatilityScore : ℚ) (temporal : TemporalChar) :
    calculateNarrativeStrength clusterStrength primaryScore secondaryScores
      volCat engagement virality volatilityScore temporal = none := by
  unfold calculateNarrativeStrength
  simp only [volCatNum, jmul_nan_left, jadd_nan, jadd_nan_left]
  rfl

end Characterization

/-- C1 (code bug). The emitted strength does not lie in `[0,100]`: it is
`NaN` on every narrative.  `calculateNarrativeStrength` adds
`characteristics.market.volume * 0.1`, but `market.volume` is the
categorical label `categorizeVolume` produced (a string such as
`'moderate'`), so the product is `NaN` and the final
`Math.min(100, Math.max(0, ·))` clamp propagates it.  Evaluated here at a
concrete input: a cluster of strength 40, primary theme score 2, one
secondary theme of score 1, `low` volume label, engagement 0.5, virality
0.1, volatility score 30, fresh/rapid temporal characteristics. -/
theorem c1_strength_is_nan :
    Characterization.calculateNarrativeStrength (some 40) (some 2) [1]
      Characterization.VolCat.low (1/2) (1/10) 30
      ⟨Characterization.AgeCat.fresh, Characterization.Emergence.rapid, 3/5⟩ =
      none :=
  Characterization.calculateNarrativeStrength_nan _ _ _ _ _ _ _ _

/-- C2 (code bug). The claimed lifecycle-stage multiplier is never
applied.  The `stageMultipliers` table does hold exactly the claimed values
(emerging 0.8, growing 1.2, peak 1.0, declining 0.6), but the code indexes
it with `characteristics.temporal.stage` — a field the temporal
characteristics record does not have — so the factor actually multiplied in
is `undefined || 1.0 = 1.0` for every input; and the sum it would multiply
is already `NaN` (see C1), so the result is not clamped to `[0,100]` either.
Evaluated at a concrete growing-stage-eligible input. -/
theorem c2_stage_multiplier_unused :
    (∀ t : Characterization.TemporalChar,
        Characterization.strengthStageMultiplier t = some 1) ∧
      Characterization.stageMultipliers Characterization.Stage.growing =
        6/5 ∧
      Characterization.calculateNarrativeStrength (some 30) (some 2) []
        Characterization.VolCat.high (1/2) (1/10) 10
        ⟨Characterization.AgeCat.mature, Characterization.Emergence.burst,
          4/5⟩ = none :=
  ⟨fun _ => rfl, rfl,
    Characterization.calculateNarrativeStrength_nan _ _ _ _ _ _ _ _⟩

/-- The ordered pairs `(xᵢ, xⱼ)` with `i < j`, as a JS double loop
`for i; for j = i+1` enumerates them. -/
def pairsOf {α : Type} : List α → List (α × α)
  | [] => []
  | x :: xs => (xs.map fun y => (x, y)) ++ pairsOf xs

namespace Scorer

/-- A member token as the scorer's overlap computation reads it (only the
address matters there). -/
structure STok where
  address : ℕ
deriving DecidableEq, Repr

/-- A characterized narrative as the scorer reads it: display name, strength
(a JS number — `NaN` in the real pipeline, see C1), optional primary theme
(`themes?.primary?.theme`), optional lifecycle stage (`lifecycle?.stage`),
and member tokens. -/
structure Narrative where
  name : String
  strength : JNum
  primaryTheme : Option String
  stage : Option String
  tokens : List STok
deriving DecidableEq, Repr

/-- Embeds `calculateTokenOverlap`: 0 when either token list is empty, otherwise
`|addresses₁ ∩ addresses₂| / min(|addresses₁|, |addresses₂|)` over the
address sets. -/
def calculateTokenOverlap (t1 t2 : List STok) : ℚ :=
  if t1.isEmpty ∨ t2.isEmpty then 0
  else
    let a1 := (t1.map STok.address).toFinset
    let a2 := (t2.map STok.address).toFinset
    ((a1 ∩ a2).card : ℚ) / ((min a1.card a2.card : ℕ) : ℚ)

/-- Embeds `calculatePairCorrelation`: a weighted blend — same primary theme adds
0.6, same lifecycle stage adds 0.3, strength difference below 20 adds 0.2
(each also counting one factor), token overlap adds `overlap × 0.4` and
always counts one factor — divided by the factor count.  `strength || 0`
turns a `NaN` strength into 0 before comparing, and JS
`undefined === undefined` makes two missing themes (or stages) compare
equal, exactly as `Option` equality does. -/
def calculatePairCorrelation (n1 n2 : Narrative) : ℚ :=
  let fTheme : ℚ × ℚ :=
    if n1.primaryTheme = n2.primaryTheme then (3/5, 1) else (0, 0)
  let fStage : ℚ × ℚ := if n1.stage = n2.stage then (3/10, 1) else (0, 0)
  let fStr : ℚ × ℚ :=
    if |jval (jor n1.strength (some 0)) - jval (jor n2.strength (some 0))| <
        20 then (1/5, 1) else (0, 0)
  let overlap := calculateTokenOverlap n1.tokens n2.tokens
  let correlation := fTheme.1 + fStage.1 + fStr.1 + overlap * (2/5)
  let factors := fTheme.2 + fStage.2 + fStr.2 + 1
  if 0 < factors then correlation / factors else 0

/-- The rows of `calculateCorrelationMatrix`: for every pair `i < j`, the two
narrative names and their pair correlation. -/
def correlationEntries (ns : List Narrative) : List (String × String × ℚ) :=
  (pairsOf ns).map fun p =>
    (p.1.name, p.2.name, calculatePairCorrelation p.1 p.2)

/-- The increment one matrix row past the correlation threshold contributes
to `correlationPenalty` inside `applyCorrelationAdjustments`:
`correlation * 5` for positive correlation (a penalty) and
`correlation * 3` for negative correlation (a bonus, since the total is
subtracted from the score); rows at or below the threshold contribute 0. -/
def pairAdjust (corr threshold : ℚ) : ℚ :=
  if threshold < |corr| then (if 0 < corr then corr * 5 else corr * 3) else 0

/-- The `correlationPenalty` accumulated for one narrative: the sum of
`pairAdjust` over every matrix row naming it (rows not past the threshold
contribute 0, exactly as when the code's combined guard fails). -/
def correlationPenalty (n : Narrative)
    (entries : List (String × String × ℚ)) (threshold : ℚ) : ℚ :=
  entries.foldl
    (fun acc e =>
      if e.1 = n.name ∨ e.2.1 = n.name then acc + pairAdjust e.2.2 threshold
      else acc) 0

/-- A score record as it reaches step 6 of the scorer: the narrative and its
whale-adjusted score. -/
structure ScoreData where
  narrative : Narrative
  whaleAdjustedScore : ℚ
deriving DecidableEq, Repr

/-- Embeds `applyCorrelationAdjustments`: per record, the correlation penalty and
`finalScore = max(0, min(100, whaleAdjustedScore - correlationPenalty))`. -/
def applyCorrelationAdjustments (scores : List ScoreData)
    (entries : List (String × String × ℚ)) (threshold : ℚ) :
    List (ScoreData × ℚ × ℚ) :=
  scores.map fun sd =>
    let p := correlationPenalty sd.narrative entries threshold
    (sd, p, max 0 (min 100 (sd.whaleAdjustedScore - p)))

end Scorer

namespace Scorer

/-- Two token lists with the same address set are either both empty or have
token overlap exactly 1. -/
theorem tokenOverlap_of_eq_sets (t1 t2 : List STok)
    (h : (t1.map STok.address).toFinset = (t2.map STok.address).toFinset) :
    calculateTokenOverlap t1 t2 = 0 ∨ calculateTokenOverlap t1 t2 = 1 := by
  unfold calculateTokenOverlap
  by_cases he : (t1.isEmpty : Prop) ∨ (t2.isEmpty : Prop)
  · left
    rw [if_pos he]
  · right
    rw [if_neg he]
    have h2 : t2 ≠ [] := by
      intro hnil
      exact he (Or.inr (by simp [hnil]))
    have hnonempty : ((t2.map STok.address).toFinset).Nonempty := by
      cases t2 with
      | nil => exact absurd rfl h2
      | cons x xs => exact ⟨x.address, by simp⟩
    have hcard : ((((t2.map STok.address).toFinset).card : ℕ) : ℚ) ≠ 0 := by
      exact_mod_cast (Finset.card_pos.mpr hnonempty).ne'
    simp only [h, Finset.inter_self, min_self]
    exact div_self hcard

end Scorer

/-- C3 (amended). For two narratives with identical member address sets
and identical primary theme and lifecycle stage, the pair correlation lies
in `[0, 13/30]`, so the correlation adjustment applied to each of them is
never positive — and under the default correlation threshold `0.7` it is
exactly zero, because `13/30 < 0.7` keeps every such pair below the
threshold. -/
theorem c3_full_overlap_adjustment (n1 n2 : Scorer.Narrative)
    (hset : (n1.tokens.map Scorer.STok.address).toFinset =
      (n2.tokens.map Scorer.STok.address).toFinset)
    (hth : n1.primaryTheme = n2.primaryTheme) (hst : n1.stage = n2.stage) :
    0 ≤ Scorer.calculatePairCorrelation n1 n2 ∧
      Scorer.calculatePairCorrelation n1 n2 ≤ 13/30 ∧
      (∀ threshold : ℚ,
        0 ≤ Scorer.pairAdjust (Scorer.calculatePairCorrelation n1 n2)
          threshold) ∧
      Scorer.pairAdjust (Scorer.calculatePairCorrelation n1 n2) (7/10) = 0 := by
  have hov := Scorer.tokenOverlap_of_eq_sets n1.tokens n2.tokens hset
  have hpos : 0 < Scorer.calculatePairCorrelation n1 n2 ∧
      Scorer.calculatePairCorrelation n1 n2 ≤ 13/30 := by
    unfold Scorer.calculatePairCorrelation
    rw [hth, hst]
    simp only [eq_self_iff_true, if_true]
    rcases hov with h | h <;> rw [h] <;>
      by_cases hs : |jval (jor n1.strength (some 0)) -
        jval (jor n2.strength (some 0))| < 20 <;>
      simp only [hs, if_true, if_false] <;> norm_num
  refine ⟨le_of_lt hpos.1, hpos.2, ?_, ?_⟩
  · intro threshold
    unfold Scorer.pairAdjust
    split_ifs with h1 h2
    · linarith [hpos.1]
    · exact absurd hpos.1 h2
    · exact le_refl 0
  · unfold Scorer.pairAdjust
    have hno : ¬ ((7:ℚ)/10 < |Scorer.calculatePairCorrelation n1 n2|) := by
      rw [abs_of_pos hpos.1]
      linarith [hpos.2]
    rw [if_neg hno]

/-- First narrative of the concrete C3 pair: theme `animals`, stage `peak`,
strength 50, members at addresses 1 and 2. -/
def c3N1 : Scorer.Narrative :=
  ⟨"Narrative A", some 50, some "animals", some "peak", [⟨1⟩, ⟨2⟩]⟩

/-- Second narrative of the concrete C3 pair: same theme, stage, strength
and member address set as the first. -/
def c3N2 : Scorer.Narrative :=
  ⟨"Narrative B", some 50, some "animals", some "peak", [⟨1⟩, ⟨2⟩]⟩

/-- Witness for the C3 theorem at the concrete pair `c3N1`, `c3N2`. -/
theorem c3_full_overlap_adjustment_witness :
    0 ≤ Scorer.calculatePairCorrelation c3N1 c3N2 ∧
      Scorer.calculatePairCorrelation c3N1 c3N2 ≤ 13/30 ∧
      (∀ threshold : ℚ,
        0 ≤ Scorer.pairAdjust (Scorer.calculatePairCorrelation c3N1 c3N2)
          threshold) ∧
      Scorer.pairAdjust (Scorer.calculatePairCorrelation c3N1 c3N2) (7/10) =
        0 :=
  c3_full_overlap_adjustment c3N1 c3N2 rfl rfl rfl

/-- C3 (counterexample). On a batch of exactly two narratives with full
token overlap and identical primary theme and lifecycle stage, the pair
correlation is `0.375`, which is below the default correlation threshold
`0.7`, so the scorer's correlation adjustment is `0` for both narratives and
their final scores equal their whale-adjusted scores unchanged: the
adjustment is not negative and does not reduce their final score. -/
theorem c3_counterexample :
    Scorer.calculatePairCorrelation c3N1 c3N2 = 3/8 ∧
      Scorer.applyCorrelationAdjustments [⟨c3N1, 70⟩, ⟨c3N2, 60⟩]
        (Scorer.correlationEntries [c3N1, c3N2]) (7/10) =
        [(⟨c3N1, 70⟩, 0, 70), (⟨c3N2, 60⟩, 0, 60)] := by
  have hov : Scorer.calculateTokenOverlap c3N1.tokens c3N2.tokens = 1 := by
    unfold Scorer.calculateTokenOverlap
    norm_num [c3N1, c3N2]
  have hcorr : Scorer.calculatePairCorrelation c3N1 c3N2 = 3/8 := by
    unfold Scorer.calculatePairCorrelation
    rw [hov]
    norm_num [c3N1, c3N2, jor, jval]
  have hentries : Scorer.correlationEntries [c3N1, c3N2] =
      [("Narrative A", "Narrative B", 3/8)] := by
    rw [show Scorer.correlationEntries [c3N1, c3N2] =
      [(c3N1.name, c3N2.name, Scorer.calculatePairCorrelation c3N1 c3N2)]
      from rfl, hcorr]
    rfl
  refine ⟨hcorr, ?_⟩
  rw [hentries]
  have hadj : Scorer.pairAdjust (3/8) (7/10) = 0 := by
    unfold Scorer.pairAdjust
    rw [show |(3:ℚ)/8| = 3/8 from abs_of_nonneg (by norm_num)]
    norm_num
  have hp1 : Scorer.correlationPenalty c3N1
      [("Narrative A", "Narrative B", 3/8)] (7/10) = 0 := by
    simp [Scorer.correlationPenalty, c3N1, hadj]
  have hp2 : Scorer.correlationPenalty c3N2
      [("Narrative A", "Narrative B", 3/8)] (7/10) = 0 := by
    simp [Scorer.correlationPenalty, c3N2, hadj]
  simp only [Scorer.applyCorrelationAdjustments, List.map_cons, List.map_nil]
  simp only [hp1, hp2]
  norm_num

namespace Scorer

/-- The slice of the scorer's result that C9 concerns: the returned
narrative list, each narrative paired with its `finalScore`. -/
structure ScoringOutcome where
  rankedNarratives : List (Narrative × ℚ)
deriving DecidableEq, Repr

/-- The catch fallback of `calculateMemeCoinScores`:
`narratives.map(n => ({ ...n, finalScore: n.strength || 0 }))` — input order
is kept, no sort happens and no rank is assigned. -/
def scorerFallback (narratives : List Narrative) : List (Narrative × ℚ) :=
  narratives.map fun n => (n, jval (jor n.strength (some 0)))

/-- The try/catch skeleton of `calculateMemeCoinScores`: the staged
computation (steps 1–10) is abstracted as an `Except` value; any exception
it raises is caught at the top level and replaced by the fallback over the
input narratives. -/
def calculateMemeCoinScores (narratives : List Narrative)
    (staged : Except String ScoringOutcome) : ScoringOutcome :=
  match staged with
  | .ok r => r
  | .error _ => ⟨scorerFallback narratives⟩

end Scorer

/-- C9 (amended). When the staged computation raises an exception, the
top-level catch returns a well-formed result over exactly the input
narratives, in input order, with each `finalScore` set to the narrative's
unadjusted strength (`strength || 0`, hence 0 for a missing or `NaN`
strength); the list is not re-sorted and no ranks are assigned, but callers
always receive a result. -/
theorem c9_fallback_shape (narratives : List Scorer.Narrative) (e : String) :
    (Scorer.calculateMemeCoinScores narratives
        (Except.error e)).rankedNarratives.map Prod.fst = narratives ∧
      (Scorer.calculateMemeCoinScores narratives
        (Except.error e)).rankedNarratives.map Prod.snd =
        narratives.map fun n => jval (jor n.strength (some 0)) := by
  constructor <;>
    simp [Scorer.calculateMemeCoinScores, Scorer.scorerFallback,
      List.map_map, Function.comp_def]

/-- First narrative of the concrete C9 batch: strength 10. -/
def c9NA : Scorer.Narrative := ⟨"Weak", some 10, none, none, []⟩

/-- Second narrative of the concrete C9 batch: strength 50, listed after the
weaker one. -/
def c9NB : Scorer.Narrative := ⟨"Strong", some 50, none, none, []⟩

/-- C9 (counterexample). After an exception, the fallback result for the
batch `[strength 10, strength 50]` carries the final scores `[10, 50]` in
input order: the returned sequence is not sorted descending by score, so the
narratives are not ranked by their unadjusted strength (the normal path
sorts descending and assigns ranks; the fallback does neither). -/
theorem c9_counterexample :
    (Scorer.calculateMemeCoinScores [c9NA, c9NB]
        (Except.error "stage failure")).rankedNarratives.map Prod.snd =
      [10, 50] ∧
      ¬ List.Sorted (· ≥ ·)
        ((Scorer.calculateMemeCoinScores [c9NA, c9NB]
          (Except.error "stage failure")).rankedNarratives.map Prod.snd) := by
  have h : (Scorer.calculateMemeCoinScores [c9NA, c9NB]
      (Except.error "stage failure")).rankedNarratives.map Prod.snd =
      ([10, 50] : List ℚ) := by
    simp [Scorer.calculateMemeCoinScores, Scorer.scorerFallback, c9NA, c9NB,
      jor, jval]
  refine ⟨h, ?_⟩
  rw [h]
  intro hs
  have := List.rel_of_sorted_cons hs 50 (by simp)
  norm_num at this

namespace Scorer

/-- The five base-weight components of the scorer. -/
structure Weights where
  volume : ℚ
  social : ℚ
  liquidity : ℚ
  holders : ℚ
  priceVolatility : ℚ
deriving DecidableEq, Repr

/-- Default base weights: 0.35 / 0.25 / 0.20 / 0.10 / 0.10. -/
def defaultWeights : Weights := ⟨7/20, 1/4, 1/5, 1/10, 1/10⟩

/-- The object `config.baseWeights` as the JS object it is: an association list keyed
by the property names, in insertion order. -/
def weightsAList (w : Weights) : List (String × ℚ) :=
  [("volume", w.volume), ("social", w.social), ("liquidity", w.liquidity),
   ("holders", w.holders), ("priceVolatility", w.priceVolatility)]

/-- JS property read on an object modelled as an association list:
`undefined` (`none`) when the key is absent. -/
def lookupProp (l : List (String × ℚ)) (k : String) : Option ℚ :=
  (l.find? fun p => p.1 == k).map Prod.snd

/-- JS property write: update the entry in place when the key exists,
otherwise append a fresh property. -/
def setProp (l : List (String × ℚ)) (k : String) (v : ℚ) :
    List (String × ℚ) :=
  if l.any fun p => p.1 == k then
    l.map fun p => if p.1 == k then (p.1, v) else p
  else l ++ [(k, v)]

/-- The component object `calculateBaseScores` builds for every score
record: exactly the keys `volume`, `social`, `liquidity`, `holders`,
`priceVolatility`. -/
def componentsAList (volume social liquidity holders priceVolatility : ℚ) :
    List (String × ℚ) :=
  [("volume", volume), ("social", social), ("liquidity", liquidity),
   ("holders", holders), ("priceVolatility", priceVolatility)]

/-- A ranked score record as `rankNarratives` emits it, restricted to what
weight adaptation reads: its `components` object. -/
structure Ranked where
  components : List (String × ℚ)
deriving DecidableEq, Repr

/-- The component names `analyzeComponentPerformance` inspects. -/
def perfComponents : List String :=
  ["strength", "momentum", "community", "novelty", "correlation"]

/-- The indexed accumulation of `analyzeComponentPerformance`'s `forEach`:
for each narrative carrying the component, add
`value × (1 - index / length)` and count it as valid. -/
def perfFold (comp : String) (n : ℚ) :
    List Ranked → ℕ → ℚ × ℕ → ℚ × ℕ
  | [], _, acc => acc
  | r :: rs, i, acc =>
    perfFold comp n rs (i + 1)
      (match lookupProp r.components comp with
       | some v => (acc.1 + v * (1 - (i : ℚ) / n), acc.2 + 1)
       | none => acc)

/-- Embeds `analyzeComponentPerformance`: for each inspected component, the sum of
`value × rankScore` over the narratives carrying it, divided by their count,
minus 0.5 — and `0` when no narrative carries the component. -/
def analyzeComponentPerformance (ranked : List Ranked) :
    List (String × ℚ) :=
  perfComponents.map fun comp =>
    let step := perfFold comp (ranked.length : ℚ) ranked 0 (0, 0)
    (comp, if 0 < step.2 then step.1 / (step.2 : ℚ) - 1/2 else 0)

/-- Embeds `normalizeWeights`: divide every entry by the sum of all entries when
that sum is positive. -/
def normalizeWeights (l : List (String × ℚ)) : List (String × ℚ) :=
  let s := (l.map Prod.snd).sum
  if 0 < s then l.map fun p => (p.1, p.2 / s) else l

/-- Embeds `adaptWeights`: for every analyzed component, read the current base
weight (`undefined` for the five analyzed names, which are not base-weight
keys), add `correlation × adaptationRate`, clamp to
`[minWeight, maxWeight]` via `Math.max/Math.min`, and apply the change —
recording it in `weightAdjustments` — only when
`Math.abs(newWeight - currentWeight) > 0.01` (false whenever the comparison
involves `NaN`); finally renormalize the weights. -/
def adaptWeights (ranked : List Ranked) (weights : List (String × ℚ))
    (adaptationRate minWeight maxWeight : ℚ) :
    List (String × ℚ) × List (String × ℚ × ℚ) :=
  let perf := analyzeComponentPerformance ranked
  let step := perf.foldl
    (fun acc p =>
      let currentWeight := lookupProp acc.1 p.1
      let adjustment := p.2 * adaptationRate
      let newWeight := jmax (some minWeight)
        (jmin (some maxWeight) (jadd currentWeight (some adjustment)))
      if jgt (jabs (jsub newWeight currentWeight)) (1/100) then
        (setProp acc.1 p.1 (jval newWeight),
         acc.2 ++ [(p.1, jval currentWeight, jval newWeight)])
      else acc)
    (weights, [])
  (normalizeWeights step.1, step.2)

/-- None of the five analyzed component names is a key of the base-weight
object, so every `currentWeight` lookup is `undefined`, every clamped
`newWeight` is `NaN`, every `> 0.01` guard is false, and the adaptation loop
never touches the weights nor records an adjustment. -/
theorem adaptWeights_loop_noop (ranked : List Ranked) (w : Weights)
    (rate minW maxW : ℚ) :
    adaptWeights ranked (weightsAList w) rate minW maxW =
      (normalizeWeights (weightsAList w), []) := rfl

/-- When the base weights sum to 1, `normalizeWeights` divides by 1 and
returns them unchanged. -/
theorem normalizeWeights_of_sum_one (w : Weights)
    (hsum : ((weightsAList w).map Prod.snd).sum = 1) :
    normalizeWeights (weightsAList w) = weightsAList w := by
  unfold normalizeWeights
  rw [hsum]
  norm_num

/-- Every score record the pipeline ranks carries exactly the five base
components; looking up any analyzed component name on it is `undefined`. -/
theorem lookupProp_perf_none (v s l h p : ℚ) (comp : String)
    (hc : comp ∈ perfComponents) :
    lookupProp (componentsAList v s l h p) comp = none := by
  fin_cases hc <;> rfl

/-- Under pipeline-shaped components, `perfFold` never finds the inspected
component and leaves the accumulator untouched. -/
theorem perfFold_noop (comp : String) (hc : comp ∈ perfComponents)
    (n : ℚ) (ranked : List Ranked)
    (hcomp : ∀ r ∈ ranked, ∃ v s l h p : ℚ,
      r.components = componentsAList v s l h p) :
    ∀ (i : ℕ) (acc : ℚ × ℕ), perfFold comp n ranked i acc = acc := by
  induction ranked with
  | nil => intro i acc; rfl
  | cons r rs ih =>
    intro i acc
    obtain ⟨v, s, l, h, p, hr⟩ := hcomp r (by simp)
    unfold perfFold
    rw [hr, lookupProp_perf_none v s l h p comp hc]
    exact ih (fun r hr => hcomp r (by simp [hr])) (i + 1) acc

end Scorer

/-- C10. On every call to the scorer, the weight-adaptation step leaves
every entry of `config.baseWeights` unchanged and returns an empty
adjustment map: `analyzeComponentPerformance` inspects only the component
names `strength`, `momentum`, `community`, `novelty`, `correlation`, while
the ranked score records carry only the components `volume`, `social`,
`liquidity`, `holders`, `priceVolatility`, so every computed performance
correlation is `0`, every looked-up current weight is `undefined`, and no
change passes the `0.01` guard.  (The hypothesis that the base weights sum
to 1 holds for the default configuration and is re-established by
`normalizeWeights` on every call.) -/
theorem c10_adaptation_noop (ranked : List Scorer.Ranked)
    (w : Scorer.Weights) (rate minW maxW : ℚ)
    (hcomp : ∀ r ∈ ranked, ∃ v s l h p : ℚ,
      r.components = Scorer.componentsAList v s l h p)
    (hsum : ((Scorer.weightsAList w).map Prod.snd).sum = 1) :
    Scorer.analyzeComponentPerformance ranked =
        Scorer.perfComponents.map (fun c => (c, (0 : ℚ))) ∧
      Scorer.adaptWeights ranked (Scorer.weightsAList w) rate minW maxW =
        (Scorer.weightsAList w, []) := by
  constructor
  · unfold Scorer.analyzeComponentPerformance
    apply List.map_congr_left
    intro comp hc
    rw [Scorer.perfFold_noop comp hc _ ranked hcomp 0 (0, 0)]
    norm_num
  · rw [Scorer.adaptWeights_loop_noop,
      Scorer.normalizeWeights_of_sum_one w hsum]

/-- Witness for C10: the empty batch under the default weights. -/
theorem c10_adaptation_noop_witness :
    Scorer.analyzeComponentPerformance [] =
        Scorer.perfComponents.map (fun c => (c, (0 : ℚ))) ∧
      Scorer.adaptWeights [] (Scorer.weightsAList Scorer.defaultWeights)
        (1/10) (1/20) (1/2) =
        (Scorer.weightsAList Scorer.defaultWeights, []) :=
  c10_adaptation_noop [] Scorer.defaultWeights (1/10) (1/20) (1/2)
    (by intro r hr; simp at hr)
    (by norm_num [Scorer.weightsAList, Scorer.defaultWeights])

/-- C5. After the scorer's weight-adaptation step completes, the base
component weights sum to 1 and every individual base weight lies within
`[minWeight, maxWeight]` — given that the incoming weights already satisfied
both (as the defaults do, and as every later call inherits, since the step
never alters them). -/
theorem c5_weights_invariant (ranked : List Scorer.Ranked)
    (w : Scorer.Weights) (rate minW maxW : ℚ)
    (hsum : ((Scorer.weightsAList w).map Prod.snd).sum = 1)
    (hbounds : ∀ p ∈ Scorer.weightsAList w, minW ≤ p.2 ∧ p.2 ≤ maxW) :
    (((Scorer.adaptWeights ranked (Scorer.weightsAList w) rate minW
        maxW).1).map Prod.snd).sum = 1 ∧
      ∀ p ∈ (Scorer.adaptWeights ranked (Scorer.weightsAList w) rate minW
        maxW).1, minW ≤ p.2 ∧ p.2 ≤ maxW := by
  rw [Scorer.adaptWeights_loop_noop,
    Scorer.normalizeWeights_of_sum_one w hsum]
  exact ⟨hsum, hbounds⟩

/-- Witness for C5: the default weights, which sum to 1 and lie inside the
default `[0.05, 0.5]` bounds, on the empty batch. -/
theorem c5_weights_invariant_witness :
    (((Scorer.adaptWeights [] (Scorer.weightsAList Scorer.defaultWeights)
        (1/10) (1/20) (1/2)).1).map Prod.snd).sum = 1 ∧
      ∀ p ∈ (Scorer.adaptWeights []
        (Scorer.weightsAList Scorer.defaultWeights) (1/10) (1/20) (1/2)).1,
        (1:ℚ)/20 ≤ p.2 ∧ p.2 ≤ 1/2 :=
  c5_weights_invariant [] Scorer.defaultWeights (1/10) (1/20) (1/2)
    (by norm_num [Scorer.weightsAList, Scorer.defaultWeights])
    (by
      intro p hp
      simp only [Scorer.weightsAList, Scorer.defaultWeights, List.mem_cons,
        List.mem_singleton] at hp
      rcases hp with h | h | h | h | h | h <;>
        first
        | (subst h; norm_num)
        | simp at h)

namespace Clustering

/-- The result record `clusterTokens` returns: clusters, outliers, and the
metadata fields of the insufficient-data branch.  `γ` abstracts the scored
cluster records of the full pipeline. -/
structure ClusterResult (α γ : Type) where
  clusters : List γ
  outliers : List α
  totalTokens : ℕ
  algorithmUsed : String
  reason : String

/-- The entry guard of `clusterTokens` (`clustering.js`, lines 56–69): a
batch smaller than `minClusterSize` short-circuits — before the `try` block
and before any feature extraction or algorithm runs — to the well-formed
empty result, so this branch cannot throw; larger batches continue into the
ensemble, abstracted here as `rest`. -/
def clusterTokens {α γ : Type} (minClusterSize : ℕ)
    (rest : List α → ClusterResult α γ) (tokens : List α) :
    ClusterResult α γ :=
  if tokens.length < minClusterSize then
    ⟨[], tokens, tokens.length, "none", "Insufficient tokens for clustering"⟩
  else rest tokens

/-- Embeds `euclideanDistance`: the square root of the summed squared coordinate
differences.  The code iterates over the first vector's indices; the
pipeline always compares vectors of equal dimension, which the pointwise
`zip` reproduces. -/
noncomputable def euclideanDistance (a b : List ℝ) : ℝ :=
  Real.sqrt (((a.zip b).map fun p => (p.1 - p.2)^2).sum)

/-- The similarities `calculateClusterCoherence` accumulates: for every
member pair `i < j`, `Math.max(0, 1 - distance)` — each pair is clamped at
0 before averaging. -/
noncomputable def pairSims (fs : List (List ℝ)) : List ℝ :=
  (pairsOf fs).map fun p => max 0 (1 - euclideanDistance p.1 p.2)

/-- Embeds `calculateClusterCoherence` of `clustering.js`, lines 969–985: clusters
with fewer than two member feature records get coherence 1; otherwise the
per-pair-clamped similarities are averaged over the pair count. -/
noncomputable def calculateClusterCoherence (fs : List (List ℝ)) : ℝ :=
  if fs.length < 2 then 1
  else if 0 < (pairsOf fs).length then
    (pairSims fs).sum / ((pairsOf fs).length : ℝ)
  else 0

/-- Modelled from the spec's words for claim C8: the mean of the pairwise
`1 - distance` values, clamped to be ≥ 0 only after averaging. -/
noncomputable def meanSimilarityClampedSpec (fs : List (List ℝ)) : ℝ :=
  max 0 ((((pairsOf fs).map fun p => 1 - euclideanDistance p.1 p.2).sum) /
    ((pairsOf fs).length : ℝ))

/-- Both components of a pair produced by `pairsOf` are list members. -/
theorem mem_pairsOf {α : Type} (l : List α) (p : α × α)
    (hp : p ∈ pairsOf l) : p.1 ∈ l ∧ p.2 ∈ l := by
  induction l with
  | nil => simp [pairsOf] at hp
  | cons x xs ih =>
    simp only [pairsOf, List.mem_append, List.mem_map] at hp
    rcases hp with ⟨y, hy, rfl⟩ | hp
    · exact ⟨by simp, by simp [hy]⟩
    · have h := ih hp
      exact ⟨by simp [h.1], by simp [h.2]⟩

/-- A list with at least two elements has at least one pair. -/
theorem pairsOf_pos {α : Type} (l : List α) (h2 : 2 ≤ l.length) :
    0 < (pairsOf l).length := by
  match l, h2 with
  | x :: y :: t, _ =>
    simp [pairsOf]

/-- The distance from a vector to itself is 0. -/
theorem euclideanDistance_self (v : List ℝ) : euclideanDistance v v = 0 := by
  unfold euclideanDistance
  have h : ((v.zip v).map fun p => (p.1 - p.2)^2).sum = 0 := by
    induction v with
    | nil => simp
    | cons a t ih => simp [List.zip_cons_cons, ih]
  rw [h, Real.sqrt_zero]

end Clustering

/-- C7. For every input batch with fewer tokens than `minClusterSize`
(including the empty batch), `clusterTokens` returns the well-formed
insufficient-data result — zero clusters, the full batch as outliers, in
order, algorithm `none` — whatever the rest of the ensemble would compute;
the guard branch performs no computation that could throw. -/
theorem c7_insufficient_tokens {α γ : Type} (minClusterSize : ℕ)
    (rest : List α → Clustering.ClusterResult α γ) (tokens : List α)
    (h : tokens.length < minClusterSize) :
    (Clustering.clusterTokens minClusterSize rest tokens).clusters = [] ∧
      (Clustering.clusterTokens minClusterSize rest tokens).outliers =
        tokens ∧
      (Clustering.clusterTokens minClusterSize rest tokens).algorithmUsed =
        "none" := by
  unfold Clustering.clusterTokens
  rw [if_pos h]
  exact ⟨rfl, rfl, rfl⟩

/-- Witness for C7: the empty batch under the default `minClusterSize = 3`,
with an arbitrary concrete continuation. -/
theorem c7_insufficient_tokens_witness :
    (Clustering.clusterTokens 3
        (fun t => Clustering.ClusterResult.mk ([] : List Unit) t t.length
          "kmeans" "") ([] : List ℕ)).clusters = [] ∧
      (Clustering.clusterTokens 3
        (fun t => Clustering.ClusterResult.mk ([] : List Unit) t t.length
          "kmeans" "") ([] : List ℕ)).outliers = [] ∧
      (Clustering.clusterTokens 3
        (fun t => Clustering.ClusterResult.mk ([] : List Unit) t t.length
          "kmeans" "") ([] : List ℕ)).algorithmUsed = "none" :=
  c7_insufficient_tokens 3 _ [] (by norm_num)

/-- C8 (amended). For every cluster with at least two member feature
records, the reported coherence is the mean of the per-pair values
`max(0, 1 − Euclidean distance)` — each pairwise similarity is clamped at 0
before averaging — hence the coherence is ≥ 0; and a cluster whose members
have pairwise-identical feature vectors has coherence exactly 1. -/
theorem c8_coherence_amended (fs : List (List ℝ)) (w : List ℝ)
    (h2 : 2 ≤ fs.length) :
    0 ≤ Clustering.calculateClusterCoherence fs ∧
      ((∀ v ∈ fs, v = w) →
        Clustering.calculateClusterCoherence fs = 1) := by
  have hnpos := Clustering.pairsOf_pos fs h2
  have hform : Clustering.calculateClusterCoherence fs =
      (Clustering.pairSims fs).sum / ((pairsOf fs).length : ℝ) := by
    unfold Clustering.calculateClusterCoherence
    rw [if_neg (by omega), if_pos hnpos]
  constructor
  · rw [hform]
    apply div_nonneg
    · apply List.sum_nonneg
      intro x hx
      simp only [Clustering.pairSims, List.mem_map] at hx
      obtain ⟨p, _, rfl⟩ := hx
      exact le_max_left 0 _
    · exact_mod_cast Nat.zero_le _
  · intro hall
    rw [hform]
    have hones : ∀ x ∈ Clustering.pairSims fs, x = 1 := by
      intro x hx
      simp only [Clustering.pairSims, List.mem_map] at hx
      obtain ⟨p, hp, rfl⟩ := hx
      have hm := Clustering.mem_pairsOf fs p hp
      rw [hall p.1 hm.1, hall p.2 hm.2,
        Clustering.euclideanDistance_self w]
      norm_num
    have hsum : (Clustering.pairSims fs).sum =
        ((Clustering.pairSims fs).length : ℝ) := by
      rw [List.sum_eq_card_nsmul _ 1 hones]
      simp
    have hlen : (Clustering.pairSims fs).length = (pairsOf fs).length := by
      simp [Clustering.pairSims]
    rw [hsum, hlen]
    exact div_self (by exact_mod_cast hnpos.ne')

/-- Witness for C8: a two-member cluster with identical one-dimensional
feature vectors has coherence 1 (and ≥ 0). -/
theorem c8_coherence_amended_witness :
    0 ≤ Clustering.calculateClusterCoherence [[(1:ℝ)/2], [(1:ℝ)/2]] ∧
      Clustering.calculateClusterCoherence [[(1:ℝ)/2], [(1:ℝ)/2]] = 1 := by
  have h := c8_coherence_amended [[(1:ℝ)/2], [(1:ℝ)/2]] [(1:ℝ)/2]
    (by norm_num)
  refine ⟨h.1, h.2 ?_⟩
  intro v hv
  simp only [List.mem_cons, List.not_mem_nil, or_false] at hv
  rcases hv with rfl | rfl <;> rfl

/-- C8 (counterexample). For the member feature records with combined
vectors `[0]`, `[0]`, `[4]`, the code's coherence is `1/3` (the two
negative pairwise similarities `1 − 4 = −3` are clamped to 0 before
averaging), while the claim's formula — the mean of the pairwise
similarities, clamped after averaging — gives `max(0, −5/3) = 0`: the
reported coherence does not equal the clamped mean. -/
theorem c8_counterexample :
    Clustering.calculateClusterCoherence [[0], [0], [4]] = 1/3 ∧
      Clustering.meanSimilarityClampedSpec [[0], [0], [4]] = 0 ∧
      Clustering.calculateClusterCoherence [[0], [0], [4]] ≠
        Clustering.meanSimilarityClampedSpec [[0], [0], [4]] := by
  have hd1 : Clustering.euclideanDistance [(0:ℝ)] [0] = 0 :=
    Clustering.euclideanDistance_self _
  have hd2 : Clustering.euclideanDistance [(0:ℝ)] [4] = 4 := by
    unfold Clustering.euclideanDistance
    rw [show ((([(0:ℝ)].zip [(4:ℝ)]).map fun p => (p.1 - p.2)^2).sum =
      (4:ℝ)^2) by norm_num [List.zip_cons_cons]]
    exact Real.sqrt_sq (by norm_num)
  have hpairs : pairsOf [[(0:ℝ)], [0], [4]] =
      [([0], [0]), ([0], [4]), ([0], [4])] := by
    simp [pairsOf]
  have hmax0 : max (0:ℝ) (1 - 4) = 0 := max_eq_left (by norm_num)
  have hcode : Clustering.calculateClusterCoherence [[0], [0], [4]] =
      1/3 := by
    unfold Clustering.calculateClusterCoherence
    rw [if_neg (by norm_num), if_pos (by rw [hpairs]; norm_num)]
    unfold Clustering.pairSims
    rw [hpairs]
    simp only [List.map_cons, List.map_nil, hd1, hd2, hmax0,
      List.sum_cons, List.sum_nil, List.length_cons, List.length_nil]
    norm_num
  have hspec : Clustering.meanSimilarityClampedSpec [[0], [0], [4]] = 0 := by
    unfold Clustering.meanSimilarityClampedSpec
    rw [hpairs]
    simp only [List.map_cons, List.map_nil, hd1, hd2, List.sum_cons,
      List.sum_nil, List.length_cons, List.length_nil]
    rw [max_eq_left (by norm_num)]
  refine ⟨hcode, hspec, ?_⟩
  rw [hcode, hspec]
  norm_num
